import Mathlib

/-!
Shallow embedding of the Sapaad/kafka-poc repository (Go): a Kafka client
bootstrap that verifies broker certificates before constructing a consumer
and an asynchronous producer, plus the supervision loops and the dispatch
and shutdown paths of main.

Sources embedded:
  - src/kafka/kafka.go : Config, Client, Message, Connect, createTLSConfig,
    brokerAddresses, verifyServerCert, createKafkaConsumer/Producer (the
    ClientID lines), topic, group, ShowNotifications, ShowErrors.
  - src/unnamed/part_000 (main.go) : main, processMessage.

External collaborators (the Go standard library and the sarama client) are
modelled at their interfaces, each marked in its doc comment.
-/

namespace KafkaPoc

/-- Embeds the Config struct of src/kafka/kafka.go (lines 22-29): the
environment-decoded configuration record. -/
structure Config where
  URL : String
  TrustedCert : String
  ClientCertKey : String
  ClientCert : String
  Prefix : String
  ConsumerGroup : String
deriving Repr, DecidableEq

/-- Embeds Config.topic (kafka.go lines 252-260). The Go body initialises
topic to the empty string and only assigns Prefix joined with topicName
(strings.Join with empty separator) when Prefix is non-empty; the empty
string initialiser is returned unchanged when Prefix is empty. -/
def Config.topic (kc : Config) (topicName : String) : String :=
  let t := ""
  if Config.Prefix kc ≠ "" then String.intercalate "" [Config.Prefix kc, topicName]
  else t

/-- Embeds Config.group (kafka.go lines 263-271): the consumer group name,
with Prefix joined in front (empty separator) when Prefix is non-empty. -/
def Config.group (kc : Config) : String :=
  let g := Config.ConsumerGroup kc
  if Config.Prefix kc ≠ "" then String.intercalate "" [Config.Prefix kc, g]
  else g

/-- Embeds the ClientID assignment of Config.createKafkaConsumer
(kafka.go line 207): strings.Join of the base ConsumerGroup field and the
formatted creation time, with separator "-". The formatted time.Now()
string is passed in as the opaque argument now. -/
def consumerClientID (kc : Config) (now : String) : String :=
  String.intercalate "-" [Config.ConsumerGroup kc, now]

/-- Embeds the ClientID assignment of Config.createKafkaProducer
(kafka.go line 237): identical expression to the consumer side. -/
def producerClientID (kc : Config) (now : String) : String :=
  String.intercalate "-" [Config.ConsumerGroup kc, now]

/-- Embeds strings.Split with the one-character separator used at
kafka.go line 156 (the Go standard library function is outside this
repository): every comma separates, adjacent commas give empty entries,
and the split of the empty string is the one-element list holding the
empty string. Written as structural recursion over the character list so
it evaluates in the kernel; acc holds the characters of the current entry
in reverse. -/
def splitCommaAux : List Char → List Char → List String
  | [], acc => [⟨acc.reverse⟩]
  | c :: cs, acc =>
    if c = ',' then ⟨acc.reverse⟩ :: splitCommaAux cs []
    else splitCommaAux cs (c :: acc)

/-- strings.Split of a string on the comma separator. -/
def splitComma (s : String) : List String :=
  splitCommaAux s.data []

/-- Modelled from the spec: the characters after the first scheme
separator "://" of a broker URL entry, none when the entry has no such
separator (net/url then yields no Host component for these opaque broker
entries). -/
def dropScheme : List Char → Option (List Char)
  | [] => none
  | ':' :: '/' :: '/' :: rest => some rest
  | _ :: rest => dropScheme rest

/-- The characters of the authority component: everything up to the next
"/" (the start of the path). -/
def takeHostPort : List Char → List Char
  | [] => []
  | c :: rest => if c = '/' then [] else c :: takeHostPort rest

/-- Modelled from the spec: the host:port extraction performed by the Go
standard library net/url Parse followed by the Host field (kafka.go lines
159-163); net/url itself is outside this repository. For an entry of the
form scheme://host:port or scheme://host:port/path the Host field is the
host:port component, the text between the first "://" and the next "/";
an entry with no "://" yields no Host component (empty string). -/
def urlHost (entry : String) : String :=
  match dropScheme entry.data with
  | none => ""
  | some rest => ⟨takeHostPort rest⟩

/-- Embeds Config.brokerAddresses (kafka.go lines 155-166): splits the URL
field on commas and extracts the Host of each entry, preserving order. -/
def Config.brokerAddresses (kc : Config) : List String :=
  (splitComma (Config.URL kc)).map urlHost

/-! ## Certificate verification (verifyServerCert, kafka.go lines 168-192) -/

/-- Modelled from the spec: an X.509 certificate as seen by the standard
chain verification of crypto/x509 (outside this repository); the spec asks
only whether the presented leaf certificate chains to a root of the
trusted pool, so a certificate is modelled by the authority that signed
it. -/
structure Cert where
  signedBy : String
deriving Repr, DecidableEq

/-- Modelled from the spec: Cert.Verify against a VerifyOptions root pool
(crypto/x509, outside this repository) succeeds exactly when the
certificate chains to some root of the pool. -/
def x509Verify (roots : List String) (c : Cert) : Bool :=
  roots.contains (Cert.signedBy c)

/-- The connection state of a completed TLS handshake, as used by
verifyServerCert: only the PeerCertificates list is read. -/
structure TLSConn where
  peerCertificates : List Cert
deriving Repr, DecidableEq

/-- Outcome of verifyServerCert. The Go function returns the pair
(bool, error); ret carries that pair (the error as an Option String).
The unguarded index PeerCertificates[0] panics on an empty list, so the
embedding makes the out-of-bounds access an explicit outcome. -/
inductive VSCResult where
  | panicked
  | ret (ok : Bool) (err : Option String)
deriving Repr, DecidableEq

/-- Embeds verifyServerCert (kafka.go lines 168-192). The externals are
passed as functions: dial models tls.Dial of the url under the fixed tls
config (an error, or the completed connection), and parsePEM models
x509.CertPool.AppendCertsFromPEM on the caCert string (none when the
material does not parse as PEM/X.509, some pool of roots otherwise).
The body follows the source line by line: a dial error returns
(false, err); the first peer certificate is read without a bounds guard;
a pool parse failure returns (false, "Unable to parse Trusted Cert");
a chain verification failure returns (false, err); otherwise
(true, nil). -/
def verifyServerCert (dial : String → Except String TLSConn)
    (parsePEM : String → Option (List String))
    (caCert url : String) : VSCResult :=
  match dial url with
  | .error e => .ret false (some e)
  | .ok conn =>
    match TLSConn.peerCertificates conn with
    | [] => .panicked
    | serverCert :: _ =>
      match parsePEM caCert with
      | none => .ret false (some "Unable to parse Trusted Cert")
      | some roots =>
        if x509Verify roots serverCert then .ret true none
        else .ret false (some "Unable to verify Server Cert")

/-! ## TLS config construction (createTLSConfig, kafka.go lines 132-152) -/

/-- The tls.Config record assembled by createTLSConfig, restricted to the
fields the source sets: the client key pair, the InsecureSkipVerify flag
and the root pool. A key pair is kept as the pair of PEM strings it was
built from. -/
structure TLSConfigGo where
  certificates : List (String × String)
  insecureSkipVerify : Bool
  rootCAs : List String
deriving Repr, DecidableEq

/-- Embeds Config.createTLSConfig (kafka.go lines 132-152). parsePEM is
the same AppendCertsFromPEM model used by verifyServerCert; keyPairOk
models tls.X509KeyPair succeeding on the client certificate and key.
A root-pool parse failure only logs (the pool stays empty and
construction continues); a key-pair failure is fatal (error result).
The source sets InsecureSkipVerify to true unconditionally. -/
def Config.createTLSConfig (parsePEM : String → Option (List String))
    (keyPairOk : String → String → Bool) (kc : Config) :
    Except String (TLSConfigGo × List String) :=
  let roots := (parsePEM (Config.TrustedCert kc)).getD []
  let logs := match parsePEM (Config.TrustedCert kc) with
    | none => ["Unable to parse Root Cert: " ++ Config.TrustedCert kc]
    | some _ => []
  if keyPairOk (Config.ClientCert kc) (Config.ClientCertKey kc) then
    .ok (⟨[(Config.ClientCert kc, Config.ClientCertKey kc)], true, roots⟩, logs)
  else
    .error "tls: failed to parse key pair"

/-! ## Client.Connect (kafka.go lines 53-86) -/

/-- Opaque handles for the externally constructed sarama-cluster consumer
and sarama async producer: the embedding records only which brokers the
handle was bound to. -/
structure ConsumerHandle where
  brokers : List String
deriving Repr, DecidableEq

structure ProducerHandle where
  brokers : List String
deriving Repr, DecidableEq

/-- Outcome of Client.Connect: log.Fatal terminates the process with the
given message, a runtime panic terminates it without one, and otherwise
the Client ends up holding the two freshly constructed handles. No
partial outcome exists: the connected constructor is the only one
carrying any handle. -/
inductive ConnectResult where
  | fatal (msg : String)
  | panicked
  | connected (consumer : ConsumerHandle) (producer : ProducerHandle)
deriving Repr, DecidableEq

/-- The ways the broker verification loop can abort startup: log.Fatal
with a message, or the runtime panic of the unguarded certificate index
inside verifyServerCert. -/
inductive ConnectAbort where
  | fatal (msg : String)
  | panicked
deriving Repr, DecidableEq

/-- Embeds the broker verification loop of Client.Connect (kafka.go lines
70-79): for each broker in order, verifyServerCert is consulted; a non-nil
error is fatal with "Get Server Cert Error", then a false ok flag is fatal
with "Broker ... has invalid certificate!"; otherwise the loop continues.
Returns the first aborting outcome, or none when every broker passes. -/
def verifyBrokersLoop (verify : String → VSCResult) :
    List String → Option ConnectAbort
  | [] => none
  | b :: rest =>
    match verify b with
    | .panicked => some .panicked
    | .ret _ (some e) => some (.fatal ("Get Server Cert Error: " ++ e))
    | .ret false none => some (.fatal ("Broker " ++ b ++ " has invalid certificate!"))
    | .ret true none => verifyBrokersLoop verify rest

/-- Embeds Client.Connect (kafka.go lines 53-86) from the point where the
broker list is known: every broker address is run through verifyServerCert
and any aborting outcome terminates startup before either handle is
constructed; only when the loop finishes are the consumer and then the
producer constructed and stored on the Client. -/
def connect (verify : String → VSCResult) (brokers : List String) :
    ConnectResult :=
  match verifyBrokersLoop verify brokers with
  | some (.fatal m) => .fatal m
  | some .panicked => .panicked
  | none => .connected ⟨brokers⟩ ⟨brokers⟩

/-- The full startup pipeline relevant to the trusted-cert claims:
createTLSConfig (which only logs on a root parse failure), then the
verification loop over brokerAddresses with the same PEM parser applied
to the same TrustedCert material, exactly as Connect wires them. -/
def connectPipeline (dial : String → Except String TLSConn)
    (parsePEM : String → Option (List String))
    (keyPairOk : String → String → Bool) (kc : Config) : ConnectResult :=
  match Config.createTLSConfig parsePEM keyPairOk kc with
  | .error e => .fatal e
  | .ok _ =>
    connect (fun b => verifyServerCert dial parsePEM (Config.TrustedCert kc) b)
      (Config.brokerAddresses kc)

/-! ## Message dispatch (main.go processMessage, part_000 lines 52-63) -/

/-- Go time.Time values are modelled as natural numbers of nanoseconds
since an epoch; the zero value of time.Time is the zero timestamp. -/
def timeZero : Nat := 0

/-- Embeds the sarama.ConsumerMessage fields read by processMessage. -/
structure ConsumerMessage where
  partition : Int
  offset : Int
  topic : String
  value : String
deriving Repr, DecidableEq

/-- Embeds messageMetadata (kafka.go lines 48-50). -/
structure MessageMetadata where
  receivedAt : Nat
deriving Repr, DecidableEq

/-- Embeds Message (kafka.go lines 40-46). -/
structure Message where
  partition : Int
  offset : Int
  topic : String
  value : String
  metadata : MessageMetadata
deriving Repr, DecidableEq

/-- Embeds processMessage (part_000 lines 52-63): builds a kafka.Message
composite literal naming only Partition, Offset, Topic and Value — the
Metadata field is omitted, so in Go it holds the zero value of its type,
with ReceivedAt the zero timestamp — and then prints the received report.
Returns the constructed Message and the printed lines. -/
def processMessage (msg : ConsumerMessage) : Message × List String :=
  let message : Message :=
    { partition := ConsumerMessage.partition msg
      offset := ConsumerMessage.offset msg
      topic := ConsumerMessage.topic msg
      value := ConsumerMessage.value msg
      metadata := { receivedAt := timeZero } }
  (message,
    ["Message Received:",
     "Topic: " ++ Message.topic message,
     "Partition: " ++ toString (Message.partition message),
     "Offset: " ++ toString (Message.offset message)])

/-! ## Supervision loops (ShowNotifications and ShowErrors,
kafka.go lines 97-130) -/

/-- Embeds the cluster.Notification fields printed by ShowNotifications;
both are kept as their printed rendering. -/
structure Notif where
  typeStr : String
  current : String
deriving Repr, DecidableEq

/-- Embeds the sarama.ProducerMessage fields printed by ShowNotifications
for a delivered message. -/
structure ProducerMessage where
  topic : String
  value : String
deriving Repr, DecidableEq

/-- One iteration of the ShowNotifications select: an arrival on the
consumer Notifications channel or on the producer Successes channel. A
none payload models the nil zero value that a receive on a closed (or
nil-delivering) channel yields, so a trace of none events is exactly what
the loop sees once its source channels are closed at shutdown. -/
inductive NotifEvent where
  | notification (n : Option Notif)
  | success (s : Option ProducerMessage)
deriving Repr, DecidableEq

/-- One iteration of the ShowErrors select, with the same none-for-nil
convention for closed channels. -/
inductive ErrEvent where
  | consumerError (e : Option String)
  | producerError (e : Option String)
deriving Repr, DecidableEq

/-- Whether a loop body iteration falls through to the next iteration or
leaves the loop. -/
inductive LoopControl where
  | next
  | exit
deriving Repr, DecidableEq

/-- Embeds the body of the ShowNotifications for-select loop (kafka.go
lines 99-112): each case prints when its payload is non-nil; no case
contains a break or return, so every iteration falls through to the next
one. -/
def showNotificationsBody (e : NotifEvent) : List String × LoopControl :=
  match e with
  | .notification n =>
    match n with
    | some v =>
      (["Notification Type: " ++ Notif.typeStr v,
        "Notification Current: " ++ Notif.current v], .next)
    | none => ([], .next)
  | .success s =>
    match s with
    | some v =>
      (["Successfull delivery to: " ++ ProducerMessage.topic v,
        "Message: " ++ ProducerMessage.value v], .next)
    | none => ([], .next)

/-- Embeds the body of the ShowErrors for-select loop (kafka.go lines
118-129): each case prints when the received error is non-nil; no case
contains a break or return. -/
def showErrorsBody (e : ErrEvent) : List String × LoopControl :=
  match e with
  | .consumerError err =>
    match err with
    | some v => (["Error occoured: " ++ v], .next)
    | none => ([], .next)
  | .producerError err =>
    match err with
    | some v => (["Error occoured: " ++ v], .next)
    | none => ([], .next)

/-- Runs a for-select loop body over a finite trace of received events:
true exactly when some iteration of the body leaves the loop during the
trace. -/
def loopExitsOn {ε : Type} (body : ε → List String × LoopControl) :
    List ε → Bool
  | [] => false
  | e :: rest =>
    match (body e).2 with
    | .exit => true
    | .next => loopExitsOn body rest

/-! ## Shutdown paths (main, part_000 lines 23-50) -/

/-- The observable process state the two shutdown paths mutate: how many
times each handle's Close has been invoked, the printed lines, and the
exit status once os.Exit has run. -/
structure ProcState where
  producerCloses : Nat
  consumerCloses : Nat
  output : List String
  exitCode : Option Nat
deriving Repr, DecidableEq

/-- The state at the point where main has connected and is listening. -/
def procInit : ProcState :=
  { producerCloses := 0, consumerCloses := 0, output := [], exitCode := none }

/-- One invocation of Producer.Close on the shared handle. -/
def closeProducer (s : ProcState) : ProcState :=
  { s with producerCloses := ProcState.producerCloses s + 1 }

/-- One invocation of Consumer.Close on the shared handle. -/
def closeConsumer (s : ProcState) : ProcState :=
  { s with consumerCloses := ProcState.consumerCloses s + 1 }

/-- os.Exit with the given status code. -/
def osExit (code : Nat) (s : ProcState) : ProcState :=
  { s with exitCode := some code }

/-- Embeds the termination-signal goroutine of main (part_000 lines 30-37):
print the closing message, Producer.Close, Consumer.Close, os.Exit(1). -/
def signalHandler (s : ProcState) : ProcState :=
  osExit 1 (closeConsumer (closeProducer
    { s with output := ProcState.output s ++ ["Closing consumer and producer..."] }))

/-- Embeds the deferred cleanup of main (part_000 lines 41-42): the defers
run in reverse registration order, Consumer.Close then Producer.Close. -/
def deferredCleanup (s : ProcState) : ProcState :=
  closeProducer (closeConsumer s)

/-- Program counter of the termination-signal goroutine of main
(part_000 lines 30-37): print the closing message, Producer.Close,
Consumer.Close, os.Exit(1), done. -/
inductive SigPC where
  | atPrint
  | atCloseProducer
  | atCloseConsumer
  | atExit
  | done
deriving Repr, DecidableEq

/-- Program counter of the main goroutine during a signal-triggered
shutdown: blocked ranging over the messages channel (part_000 line 45)
until a Consumer.Close closes that channel, then the two deferred closes
in reverse registration order (part_000 lines 41-42), Consumer.Close then
Producer.Close. -/
inductive MainPC where
  | blocked
  | atDeferCloseConsumer
  | atDeferCloseProducer
  | done
deriving Repr, DecidableEq

/-- A configuration of the two concurrently running goroutines of main
plus the shared process state. -/
structure ShutdownCfg where
  sig : SigPC
  mn : MainPC
  st : ProcState
deriving Repr, DecidableEq

/-- The two schedulable goroutines of the signal-triggered shutdown. -/
inductive Thread where
  | sig
  | mn
deriving Repr, DecidableEq

/-- One preemptible step of the chosen goroutine, none when that goroutine
cannot step. Every step requires that os.Exit has not yet run (it
terminates the whole process), and the main goroutine can leave the range
loop only once a Consumer.Close has closed the messages channel — so the
deferred closes become runnable between the signal goroutine's
Consumer.Close and its os.Exit(1). -/
def stepThread (c : ShutdownCfg) : Thread → Option ShutdownCfg
  | .sig =>
    match ProcState.exitCode (ShutdownCfg.st c) with
    | some _ => none
    | none =>
      match ShutdownCfg.sig c with
      | .atPrint => some ⟨.atCloseProducer, ShutdownCfg.mn c,
          { ShutdownCfg.st c with output := ProcState.output (ShutdownCfg.st c)
              ++ ["Closing consumer and producer..."] }⟩
      | .atCloseProducer =>
        some ⟨.atCloseConsumer, ShutdownCfg.mn c, closeProducer (ShutdownCfg.st c)⟩
      | .atCloseConsumer =>
        some ⟨.atExit, ShutdownCfg.mn c, closeConsumer (ShutdownCfg.st c)⟩
      | .atExit => some ⟨.done, ShutdownCfg.mn c, osExit 1 (ShutdownCfg.st c)⟩
      | .done => none
  | .mn =>
    match ProcState.exitCode (ShutdownCfg.st c) with
    | some _ => none
    | none =>
      match ShutdownCfg.mn c with
      | .blocked =>
        if 0 < ProcState.consumerCloses (ShutdownCfg.st c) then
          some ⟨ShutdownCfg.sig c, .atDeferCloseConsumer, ShutdownCfg.st c⟩
        else none
      | .atDeferCloseConsumer =>
        some ⟨ShutdownCfg.sig c, .atDeferCloseProducer, closeConsumer (ShutdownCfg.st c)⟩
      | .atDeferCloseProducer =>
        some ⟨ShutdownCfg.sig c, .done, closeProducer (ShutdownCfg.st c)⟩
      | .done => none

/-- Runs a schedule of goroutine choices, skipping attempts at a goroutine
that cannot currently step. -/
def runSched : ShutdownCfg → List Thread → ShutdownCfg
  | c, [] => c
  | c, t :: ts =>
    match stepThread c t with
    | none => runSched c ts
    | some c2 => runSched c2 ts

/-- The initial configuration of a signal-triggered shutdown: the signal
goroutine has just received the signal, the main goroutine is blocked on
the messages channel. -/
def shutdownInit : ShutdownCfg :=
  ⟨SigPC.atPrint, MainPC.blocked, procInit⟩

/-! ## Helper lemmas -/

/-- strings.Join of a two-element slice is plain concatenation around the
separator. -/
theorem intercalate_pair (s a b : String) :
    String.intercalate s [a, b] = a ++ s ++ b := by
  simp [String.intercalate, String.intercalate.go]

/-! ## Claims -/

/-- C2: the claim fails on the code and the code contradicts its own doc
comment. With an empty configured prefix, Config.topic returns the empty
string, dropping the base name "order_events" entirely, instead of
returning the base name unchanged; Config.group at the same configuration
does return the base group unchanged, so the slip is specific to topic. -/
theorem C2_topic_empty_prefix_drops_base :
    Config.topic ⟨"", "", "", "", "", "heroku-kafka-demo-go"⟩ "order_events" = ""
    ∧ ("" : String) ≠ "order_events"
    ∧ Config.group ⟨"", "", "", "", "", "heroku-kafka-demo-go"⟩ = "heroku-kafka-demo-go" := by
  refine ⟨rfl, by decide, rfl⟩

/-- C5 counterexample: the claim states receivedAt is assigned the current
time at dispatch and is not the zero timestamp; on the concrete record of
the spec's end-to-end scenario the constructed Message carries the zero
timestamp, because processMessage's composite literal omits the Metadata
field. -/
theorem C5_receivedAt_zero_counterexample :
    MessageMetadata.receivedAt (Message.metadata
      (processMessage ⟨2, 57, "order_events", "payload"⟩).1) = timeZero := rfl

/-- C5 amended: for every inbound record the dispatcher constructs a
Message copying partition, offset, topic and value from the record, with
metadata.receivedAt left at the zero timestamp (never assigned), and
reports it. -/
theorem C5_processMessage_fields (msg : ConsumerMessage) :
    (processMessage msg).1 =
      { partition := ConsumerMessage.partition msg
        offset := ConsumerMessage.offset msg
        topic := ConsumerMessage.topic msg
        value := ConsumerMessage.value msg
        metadata := { receivedAt := timeZero } }
    ∧ (processMessage msg).2 =
      ["Message Received:",
       "Topic: " ++ ConsumerMessage.topic msg,
       "Partition: " ++ toString (ConsumerMessage.partition msg),
       "Offset: " ++ toString (ConsumerMessage.offset msg)] :=
  ⟨rfl, rfl⟩

/-- C7 counterexample: with prefix "p", group "g" and creation time
"20250101120000", both client identifiers equal "g-20250101120000",
which differs from "pg-20250101120000", the value the claim's
prefix-qualified format requires (Config.group of this configuration is
"pg"). -/
theorem C7_clientID_ignores_prefix :
    consumerClientID ⟨"", "", "", "", "p", "g"⟩ "20250101120000" = "g-20250101120000"
    ∧ producerClientID ⟨"", "", "", "", "p", "g"⟩ "20250101120000" = "g-20250101120000"
    ∧ Config.group ⟨"", "", "", "", "p", "g"⟩ ++ "-" ++ "20250101120000"
        = "pg-20250101120000"
    ∧ ("g-20250101120000" : String) ≠ "pg-20250101120000" := by
  refine ⟨by simp [consumerClientID, intercalate_pair], by simp [producerClientID, intercalate_pair],
    rfl, by decide⟩

/-- C7 amended: for every configuration, both client identifiers equal the
base ConsumerGroup field (the prefix is not applied), followed by "-",
followed by the formatted creation time. -/
theorem C7_clientID_base_group (kc : Config) (now : String) :
    consumerClientID kc now = Config.ConsumerGroup kc ++ "-" ++ now
    ∧ producerClientID kc now = Config.ConsumerGroup kc ++ "-" ++ now := by
  refine ⟨intercalate_pair _ _ _, intercalate_pair _ _ _⟩

/-- C8: for every configuration, brokerAddresses yields exactly one
endpoint per comma-separated entry of the URL field, in order, and the
i-th endpoint is the host:port component (the Host of net/url parsing) of
the i-th entry. -/
theorem C8_brokerAddresses_per_entry (kc : Config) :
    (Config.brokerAddresses kc).length = (splitComma (Config.URL kc)).length
    ∧ ∀ i : Nat, (Config.brokerAddresses kc)[i]?
        = ((splitComma (Config.URL kc))[i]?).map urlHost := by
  refine ⟨List.length_map _ _, fun i => ?_⟩
  simp [Config.brokerAddresses]

/-- C4 counterexample: invoking the close path twice on the same handles —
once as the signal handler does and once as the deferred cleanup does —
performs the actual close twice on each handle (close counts reach 2) and
does not leave the state of a single invocation: no guard collapses the
second caller to a no-op anywhere in main. -/
theorem C4_double_close_not_guarded :
    ProcState.producerCloses (deferredCleanup (signalHandler procInit)) = 2
    ∧ ProcState.consumerCloses (deferredCleanup (signalHandler procInit)) = 2
    ∧ deferredCleanup (signalHandler procInit) ≠ signalHandler procInit := by
  refine ⟨rfl, rfl, by decide⟩

/-- C4 amended: main contains no double-close guard — every Close
invocation on a handle performs an actual close — and the double
invocation is reachable: the signal goroutine's Consumer.Close closes the
messages channel before its os.Exit(1) runs, so the main goroutine's
range loop can exit and run both deferred closes before the process
exits. On that interleaving each handle's Close is invoked twice by the
time os.Exit(1) terminates the process. -/
theorem C4_double_close_reachable (s : ProcState) :
    ProcState.producerCloses (closeProducer s) = ProcState.producerCloses s + 1
    ∧ ProcState.consumerCloses (closeConsumer s) = ProcState.consumerCloses s + 1
    ∧ ProcState.producerCloses (ShutdownCfg.st (runSched shutdownInit
        [Thread.sig, Thread.sig, Thread.sig, Thread.mn, Thread.mn, Thread.mn,
         Thread.sig])) = 2
    ∧ ProcState.consumerCloses (ShutdownCfg.st (runSched shutdownInit
        [Thread.sig, Thread.sig, Thread.sig, Thread.mn, Thread.mn, Thread.mn,
         Thread.sig])) = 2
    ∧ ProcState.exitCode (ShutdownCfg.st (runSched shutdownInit
        [Thread.sig, Thread.sig, Thread.sig, Thread.mn, Thread.mn, Thread.mn,
         Thread.sig])) = some 1 := by
  refine ⟨rfl, rfl, ?_, ?_, ?_⟩ <;> decide

/-- Every iteration of the ShowNotifications body falls through: no case
leaves the loop. -/
theorem showNotificationsBody_next (e : NotifEvent) :
    (showNotificationsBody e).2 = LoopControl.next := by
  cases e with
  | notification n => cases n <;> rfl
  | success s => cases s <;> rfl

/-- Every iteration of the ShowErrors body falls through: no case leaves
the loop. -/
theorem showErrorsBody_next (e : ErrEvent) :
    (showErrorsBody e).2 = LoopControl.next := by
  cases e with
  | consumerError err => cases err <;> rfl
  | producerError err => cases err <;> rfl

/-- C6 counterexample: once all source channels are closed, both loops
keep receiving nil zero values and still do not terminate — on the trace
a closed Notifications channel and a closed Successes channel produce,
ShowNotifications does not exit, and likewise for ShowErrors on closed
error channels; the claim that the loops terminate when all their source
channels are closed is false (the loop bodies contain no exit at all). -/
theorem C6_loops_spin_after_close :
    loopExitsOn showNotificationsBody
        [NotifEvent.notification none, NotifEvent.success none,
         NotifEvent.notification none] = false
    ∧ loopExitsOn showErrorsBody
        [ErrEvent.consumerError none, ErrEvent.producerError none,
         ErrEvent.consumerError none] = false := by
  refine ⟨rfl, rfl⟩

/-- C6 amended: neither supervision loop ever terminates on any finite
trace of received events, open channels or closed: no iteration of either
body leaves the loop, so the loops end only when the process itself
exits. -/
theorem C6_loops_never_exit (t1 : List NotifEvent) (t2 : List ErrEvent) :
    loopExitsOn showNotificationsBody t1 = false
    ∧ loopExitsOn showErrorsBody t2 = false := by
  constructor
  · induction t1 with
    | nil => rfl
    | cons e rest ih => simpa [loopExitsOn, showNotificationsBody_next e] using ih
  · induction t2 with
    | nil => rfl
    | cons e rest ih => simpa [loopExitsOn, showErrorsBody_next e] using ih

/-- The comma split is never the empty list: there is always at least the
entry being accumulated. -/
theorem splitCommaAux_ne_nil (l : List Char) : ∀ acc, splitCommaAux l acc ≠ [] := by
  induction l with
  | nil => intro acc; simp [splitCommaAux]
  | cons c cs ih =>
    intro acc
    by_cases h : c = ','
    · simp [splitCommaAux, h]
    · simpa [splitCommaAux, h] using ih (c :: acc)

/-- brokerAddresses always yields at least one address: even an empty URL
field splits into the one empty entry, exactly as in Go. -/
theorem brokerAddresses_ne_nil (kc : Config) : Config.brokerAddresses kc ≠ [] := by
  have h := splitCommaAux_ne_nil (Config.URL kc).data []
  simp only [Config.brokerAddresses, splitComma, ne_eq, List.map_eq_nil_iff]
  exact h

/-- If the verification loop falls through, every broker's verification
returned the pair (true, nil). -/
theorem verifyBrokersLoop_eq_none (verify : String → VSCResult) :
    ∀ brokers : List String, verifyBrokersLoop verify brokers = none →
      ∀ b ∈ brokers, verify b = VSCResult.ret true none := by
  intro brokers
  induction brokers with
  | nil => intro _ b hb; simp at hb
  | cons b rest ih =>
    intro h b' hb'
    cases hv : verify b with
    | panicked => simp [verifyBrokersLoop, hv] at h
    | ret ok err =>
      cases err with
      | some e => simp [verifyBrokersLoop, hv] at h
      | none =>
        cases ok with
        | false => simp [verifyBrokersLoop, hv] at h
        | true =>
          simp only [verifyBrokersLoop, hv] at h
          rcases List.mem_cons.mp hb' with rfl | hmem
          · exact hv
          · exact ih h b' hmem

/-- If no broker's verification panics and some broker's verification is
not the passing pair (true, nil), the loop aborts with log.Fatal. -/
theorem verifyBrokersLoop_failure (verify : String → VSCResult) :
    ∀ brokers : List String,
      (∀ b ∈ brokers, verify b ≠ VSCResult.panicked) →
      (∃ b ∈ brokers, verify b ≠ VSCResult.ret true none) →
      ∃ m, verifyBrokersLoop verify brokers = some (ConnectAbort.fatal m) := by
  intro brokers
  induction brokers with
  | nil => intro _ hfail; simp at hfail
  | cons b rest ih =>
    intro hnp hfail
    cases hv : verify b with
    | panicked => exact absurd hv (hnp b (List.mem_cons_self b rest))
    | ret ok err =>
      cases err with
      | some e =>
        exact ⟨"Get Server Cert Error: " ++ e, by simp [verifyBrokersLoop, hv]⟩
      | none =>
        cases ok with
        | false =>
          exact ⟨"Broker " ++ b ++ " has invalid certificate!",
            by simp [verifyBrokersLoop, hv]⟩
        | true =>
          obtain ⟨b', hb', hne⟩ := hfail
          have hrest : ∃ x ∈ rest, verify x ≠ VSCResult.ret true none := by
            rcases List.mem_cons.mp hb' with rfl | hmem
            · exact absurd hv hne
            · exact ⟨b', hmem, hne⟩
          obtain ⟨m, hm⟩ := ih (fun x hx => hnp x (List.mem_cons_of_mem b hx)) hrest
          exact ⟨m, by simp [verifyBrokersLoop, hv, hm]⟩

/-- C1: under the precondition that no broker's verification panics (a
completed handshake presents at least one certificate), Client.Connect
constructs its consumer and producer only when every configured broker
endpoint passed verification with (true, nil); and as soon as any single
endpoint returns an error or a non-ok result, startup terminates fatally
with neither handle ever constructed. -/
theorem C1_connect_verify_gate (verify : String → VSCResult) (brokers : List String)
    (hnp : ∀ b ∈ brokers, verify b ≠ VSCResult.panicked) :
    (∀ c p, connect verify brokers = ConnectResult.connected c p →
        ∀ b ∈ brokers, verify b = VSCResult.ret true none)
    ∧ ((∃ b ∈ brokers, verify b ≠ VSCResult.ret true none) →
        ∃ m, connect verify brokers = ConnectResult.fatal m) := by
  constructor
  · intro c p h b hb
    refine verifyBrokersLoop_eq_none verify brokers ?_ b hb
    cases hl : verifyBrokersLoop verify brokers with
    | none => rfl
    | some a => cases a <;> simp [connect, hl] at h
  · intro hfail
    obtain ⟨m, hm⟩ := verifyBrokersLoop_failure verify brokers hnp hfail
    exact ⟨m, by simp [connect, hm]⟩

/-- C1 witness: with three brokers of which the middle one presents an
invalid certificate, startup terminates fatally. -/
theorem C1_connect_verify_gate_witness :
    ∃ m, connect
        (fun b => if b = "bad:9096" then VSCResult.ret false none
                  else VSCResult.ret true none)
        ["a:9096", "bad:9096", "c:9096"] = ConnectResult.fatal m :=
  (C1_connect_verify_gate
      (fun b => if b = "bad:9096" then VSCResult.ret false none
                else VSCResult.ret true none)
      ["a:9096", "bad:9096", "c:9096"] (by decide)).2
    ⟨"bad:9096", by decide, by decide⟩

/-- C3: when the TLS dial completes with a handshake presenting a leaf
certificate and the trusted-root material parses into a pool,
verifyServerCert returns the failing pair (false, err) when the leaf does
not chain to any root of the pool, and the succeeding pair (true, nil)
when the leaf is correctly signed by a root of the pool. -/
theorem C3_verifyServerCert_chain (dial : String → Except String TLSConn)
    (parsePEM : String → Option (List String)) (caCert url : String)
    (conn : TLSConn) (cert : Cert) (certs : List Cert) (roots : List String)
    (hdial : dial url = Except.ok conn)
    (hpeer : TLSConn.peerCertificates conn = cert :: certs)
    (hparse : parsePEM caCert = some roots) :
    (x509Verify roots cert = false →
        verifyServerCert dial parsePEM caCert url
          = VSCResult.ret false (some "Unable to verify Server Cert"))
    ∧ (x509Verify roots cert = true →
        verifyServerCert dial parsePEM caCert url = VSCResult.ret true none) := by
  constructor <;> intro hv <;> simp [verifyServerCert, hdial, hpeer, hparse, hv]

/-- C3 witness: a server certificate signed by the pool root verifies with
(true, nil); one signed by an unknown authority fails with (false, err). -/
theorem C3_verifyServerCert_chain_witness :
    verifyServerCert (fun _ => Except.ok ⟨[⟨"rootA"⟩]⟩) (fun _ => some ["rootA"])
        "ca-pem" "broker:9096" = VSCResult.ret true none
    ∧ verifyServerCert (fun _ => Except.ok ⟨[⟨"evil"⟩]⟩) (fun _ => some ["rootA"])
        "ca-pem" "broker:9096"
        = VSCResult.ret false (some "Unable to verify Server Cert") :=
  ⟨(C3_verifyServerCert_chain (fun _ => Except.ok ⟨[⟨"rootA"⟩]⟩)
      (fun _ => some ["rootA"]) "ca-pem" "broker:9096" ⟨[⟨"rootA"⟩]⟩ ⟨"rootA"⟩ []
      ["rootA"] rfl rfl rfl).2 (by decide),
   (C3_verifyServerCert_chain (fun _ => Except.ok ⟨[⟨"evil"⟩]⟩)
      (fun _ => some ["rootA"]) "ca-pem" "broker:9096" ⟨[⟨"evil"⟩]⟩ ⟨"evil"⟩ []
      ["rootA"] rfl rfl rfl).1 (by decide)⟩

/-- C10: when the TLS dial succeeds, verifyServerCert indexes the
peer-certificate list without a guard: an empty list is exactly the panic
outcome, and a non-empty list never panics — the function is safe only
under the precondition that a completed handshake presents at least one
certificate. -/
theorem C10_peerCertificates_unguarded (dial : String → Except String TLSConn)
    (parsePEM : String → Option (List String)) (caCert url : String) (conn : TLSConn)
    (hdial : dial url = Except.ok conn) :
    (TLSConn.peerCertificates conn = [] →
        verifyServerCert dial parsePEM caCert url = VSCResult.panicked)
    ∧ (TLSConn.peerCertificates conn ≠ [] →
        verifyServerCert dial parsePEM caCert url ≠ VSCResult.panicked) := by
  constructor
  · intro hp
    simp [verifyServerCert, hdial, hp]
  · intro hp
    obtain ⟨cert, certs, hc⟩ := List.exists_cons_of_ne_nil hp
    cases hparse : parsePEM caCert with
    | none => simp [verifyServerCert, hdial, hc, hparse]
    | some roots =>
      by_cases hv : x509Verify roots cert <;>
        simp [verifyServerCert, hdial, hc, hparse, hv]

/-- C10 witness: a successful dial whose connection state carries no peer
certificate drives verifyServerCert into the panic outcome. -/
theorem C10_peerCertificates_unguarded_witness :
    verifyServerCert (fun _ => Except.ok ⟨[]⟩) (fun _ => some ["rootA"])
      "ca-pem" "broker:9096" = VSCResult.panicked :=
  (C10_peerCertificates_unguarded (fun _ => Except.ok ⟨[]⟩) (fun _ => some ["rootA"])
    "ca-pem" "broker:9096" ⟨[]⟩ rfl).1 rfl

/-- C9: when the trusted-root material does not parse as PEM/X.509 (and
the client key pair itself is well formed, with handshakes presenting at
least one certificate), createTLSConfig only logs the parse failure and
still returns a transport configuration with an empty root pool — yet the
startup pipeline still terminates fatally inside the broker verification
loop, before any consumer or producer is constructed, because
verifyServerCert re-parses the same material and turns the failure into a
returned error that Connect treats as fatal. -/
theorem C9_bad_trusted_cert_fatal (dial : String → Except String TLSConn)
    (parsePEM : String → Option (List String)) (keyPairOk : String → String → Bool)
    (kc : Config)
    (hparse : parsePEM (Config.TrustedCert kc) = none)
    (hkey : keyPairOk (Config.ClientCert kc) (Config.ClientCertKey kc) = true)
    (hpeer : ∀ url conn, dial url = Except.ok conn →
        TLSConn.peerCertificates conn ≠ []) :
    Config.createTLSConfig parsePEM keyPairOk kc
        = Except.ok (⟨[(Config.ClientCert kc, Config.ClientCertKey kc)], true, []⟩,
            ["Unable to parse Root Cert: " ++ Config.TrustedCert kc])
    ∧ ∃ m, connectPipeline dial parsePEM keyPairOk kc = ConnectResult.fatal m := by
  have htls : Config.createTLSConfig parsePEM keyPairOk kc
      = Except.ok (⟨[(Config.ClientCert kc, Config.ClientCertKey kc)], true, []⟩,
          ["Unable to parse Root Cert: " ++ Config.TrustedCert kc]) := by
    simp [Config.createTLSConfig, hparse, hkey]
  refine ⟨htls, ?_⟩
  have hv : ∀ u, verifyServerCert dial parsePEM (Config.TrustedCert kc) u
        ≠ VSCResult.ret true none
      ∧ verifyServerCert dial parsePEM (Config.TrustedCert kc) u
        ≠ VSCResult.panicked := by
    intro u
    cases hd : dial u with
    | error e => simp [verifyServerCert, hd]
    | ok conn =>
      obtain ⟨cert, certs, hc⟩ := List.exists_cons_of_ne_nil (hpeer u conn hd)
      simp [verifyServerCert, hd, hc, hparse]
  obtain ⟨b, rest, hbr⟩ := List.exists_cons_of_ne_nil (brokerAddresses_ne_nil kc)
  obtain ⟨m, hm⟩ := verifyBrokersLoop_failure
    (fun x => verifyServerCert dial parsePEM (Config.TrustedCert kc) x)
    (Config.brokerAddresses kc) (fun x _ => (hv x).2)
    ⟨b, by rw [hbr]; exact List.mem_cons_self b rest, (hv b).1⟩
  refine ⟨m, ?_⟩
  simp only [connectPipeline, htls]
  simp [connect, hm]

/-- C9 witness: a concrete run with unparseable trusted-root material, a
well-formed key pair and an unreachable broker: the TLS builder returns a
configuration after logging, and the pipeline terminates fatally. -/
theorem C9_bad_trusted_cert_fatal_witness :
    ∃ m, connectPipeline (fun _ => Except.error "connection refused")
        (fun _ => none) (fun _ _ => true)
        ⟨"kafka+ssl://h:9096", "notpem", "key", "cert", "", "g"⟩
        = ConnectResult.fatal m :=
  (C9_bad_trusted_cert_fatal (fun _ => Except.error "connection refused")
    (fun _ => none) (fun _ _ => true)
    ⟨"kafka+ssl://h:9096", "notpem", "key", "cert", "", "g"⟩
    rfl rfl (fun _ _ h => nomatch h)).2

end KafkaPoc
